import Mathlib

/-!
Verification development for the Privacy_analysis repository.

The definitions below are a shallow embedding of the Python source:
* `generate_dataset.py` — the deterministic risk-scoring heuristic
  (`calculate_risk_level`), embedded row-wise over a `Record` structure
  mirroring the generated dataframe columns;
* `ml_models/data_preprocessor.py` — the `DataPreprocessor` fit/transform
  state machine (label encoders, standard scaler, feature column order);
* `ml_models/privacy_risk_classifier.py` — the `PrivacyRiskClassifier`
  feature encoding and predict/predict_proba paths;
* `ontology_handlers/privacy_ontology.py` — `get_mitigation_strategies`
  over an abstract knowledge store, plus spec-modelled definitions for the
  `check_compliance` / `analyze_risk_factors` operations that the API layer
  calls but whose implementation is not present in the source tree.

Machine integers are modelled as `Int` (Python ints are unbounded), floats
produced by the standard scaler are modelled by the pair
(centered value, variance), which determines the emitted value
`(x - mean) / sqrt variance`; no claim below inspects the scaled magnitude.
Python `dict` lookups that can raise `KeyError`, and sklearn validation
errors, are modelled with `Except String`.
-/

namespace PrivacyAnalysis

/-- Sequential mapping of a fallible function over a list: the Lean image of a
Python `for` loop that may raise; the first raise aborts the whole loop. -/
def mapExcept {α β : Type} (f : α → Except String β) : List α → Except String (List β)
  | [] => Except.ok []
  | a :: l =>
    match f a with
    | Except.error e => Except.error e
    | Except.ok b =>
      match mapExcept f l with
      | Except.error e => Except.error e
      | Except.ok bs => Except.ok (b :: bs)

/-- Collect `get s` over a list of samples; `none` models a `KeyError` raised
while iterating a generator such as `set(sample[feature] for sample in X)`. -/
def collectVals {σ : Type} (get : σ → Option String) : List σ → Option (List String)
  | [] => Option.some []
  | s :: l =>
    match get s with
    | Option.none => Option.none
    | Option.some v =>
      match collectVals get l with
      | Option.none => Option.none
      | Option.some vs => Option.some (v :: vs)

/-- Position of a value in an encoder's class list, as
`sklearn.preprocessing.LabelEncoder.transform` computes it; `none` models the
"y contains previously unseen labels" `ValueError`. -/
def encIndex : List String → String → Option Nat
  | [], _ => Option.none
  | c :: cs, v => if c = v then Option.some 0 else (encIndex cs v).map (· + 1)

/-- Lexicographic comparison of character lists by code point, the order
`numpy.unique` sorts strings by. -/
def charListLe : List Char → List Char → Bool
  | [], _ => true
  | _ :: _, [] => false
  | a :: as, b :: bs =>
    if a.toNat < b.toNat then true
    else if b.toNat < a.toNat then false
    else charListLe as bs

/-- Code-point lexicographic order on strings. -/
def strLeB (a b : String) : Bool := charListLe a.data b.data

/-- Insert a string into an already sorted list. -/
def insertSorted (v : String) : List String → List String
  | [] => [v]
  | c :: cs => if strLeB v c then v :: c :: cs else c :: insertSorted v cs

/-- Insertion sort by the code-point lexicographic order. -/
def sortStrings : List String → List String
  | [] => []
  | v :: vs => insertSorted v (sortStrings vs)

/-- Sorted list of the distinct values of a column: `LabelEncoder.fit` stores
`numpy.unique` of the input, i.e. the distinct values in ascending order. -/
def sortedUnique (vs : List String) : List String :=
  sortStrings vs.dedup

/-! ## generate_dataset.py — domain vocabularies and the risk-scoring heuristic -/

/-- `DeviceType` enum values (models/domain_models.py). -/
def device_type_values : List String := ["camera", "sensor", "actuator", "gateway", "wearable"]

/-- `DataType` enum values (models/domain_models.py). -/
def data_type_values : List String :=
  ["location", "video", "audio", "temperature", "humidity", "pressure", "health",
   "identification"]

/-- `LocationType` enum values (models/domain_models.py). -/
def location_type_values : List String :=
  ["public_space", "private_space", "semi_public", "restricted"]

/-- `AccessPattern` values used by the dataset generator. -/
def access_pattern_values : List String := ["regular", "irregular", "burst"]

/-- `DataSharing` values used by the dataset generator. -/
def data_sharing_values : List String := ["none", "internal", "external"]

/-- `ComplianceStatus` values used by the dataset generator. -/
def compliance_status_values : List String :=
  ["compliant", "partially_compliant", "non_compliant"]

/-- The `device_risk` lookup table in `calculate_risk_level`; `none` models the
`KeyError` raised by `device_risk[row["device_type"]]` for an unknown key. -/
def deviceRisk : String → Option Int
  | "camera" => Option.some 4
  | "sensor" => Option.some 2
  | "actuator" => Option.some 3
  | "gateway" => Option.some 4
  | "wearable" => Option.some 5
  | _ => Option.none

/-- The `data_risk` lookup table in `calculate_risk_level`. -/
def dataRisk : String → Option Int
  | "location" => Option.some 5
  | "video" => Option.some 5
  | "audio" => Option.some 4
  | "temperature" => Option.some 1
  | "humidity" => Option.some 1
  | "pressure" => Option.some 1
  | "health" => Option.some 5
  | "identification" => Option.some 5
  | _ => Option.none

/-- The `location_risk` lookup table in `calculate_risk_level`. -/
def locationRisk : String → Option Int
  | "public_space" => Option.some 3
  | "private_space" => Option.some 4
  | "semi_public" => Option.some 3
  | "restricted" => Option.some 5
  | _ => Option.none

/-- One row of the generated dataframe (`generate_device_data`), minus the
computed `risk_level` column. -/
structure Record where
  device_id : String
  device_type : String
  data_type : String
  location_type : String
  access_frequency : Int
  user_consent : Bool
  network_security_level : Int
  data_sensitivity : Int
  encryption_level : Int
  retention_period : Int
  data_volume : Int
  access_pattern : String
  last_audit_days : Int
  data_anonymization : Bool
  data_pseudonymization : Bool
  data_minimization : Bool
  purpose_limitation : Bool
  storage_duration : Int
  data_sharing : String
  compliance_status : String
  security_incidents : Int
  privacy_impact_assessment : Bool
  data_protection_officer : Bool
deriving DecidableEq

/-- Tiered `access_pattern` contribution: the `if/elif` chain in
`calculate_risk_level`; any value that is neither "irregular" nor "burst"
falls through and contributes 0. -/
def accessPatternScore (ap : String) : Int :=
  if ap = "irregular" then 1 else if ap = "burst" then 2 else 0

/-- Tiered `data_sharing` contribution (`if/elif` chain, else 0). -/
def dataSharingScore (ds : String) : Int :=
  if ds = "external" then 3 else if ds = "internal" then 1 else 0

/-- Tiered `compliance_status` contribution (`if/elif` chain, else 0). -/
def complianceScore (cs : String) : Int :=
  if cs = "non_compliant" then 3 else if cs = "partially_compliant" then 1 else 0

/-- The accumulated `risk_score` of `calculate_risk_level` once the three
dictionary lookups have produced `dv`, `da`, `lo`. -/
def riskContributions (dv da lo : Int) (r : Record) : Int :=
  dv + da + lo
    + (6 - r.network_security_level)
    + r.data_sensitivity
    + (4 - r.encryption_level)
    + (if r.user_consent then 0 else 2)
    + accessPatternScore r.access_pattern
    + (if 30 < r.last_audit_days then 1 else 0)
    + (if r.data_anonymization then 0 else 2)
    + (if r.data_pseudonymization then 0 else 1)
    + (if r.data_minimization then 0 else 2)
    + (if r.purpose_limitation then 0 else 2)
    + dataSharingScore r.data_sharing
    + complianceScore r.compliance_status
    + r.security_incidents
    + (if r.privacy_impact_assessment then 0 else 2)
    + (if r.data_protection_officer then 0 else 1)

/-- The raw accumulated score before normalization; errors are the `KeyError`s
of the three dictionary lookups, raised in the order the source performs them
(device, then data, then location). -/
def calculate_risk_score (r : Record) : Except String Int :=
  match deviceRisk r.device_type, dataRisk r.data_type, locationRisk r.location_type with
  | Option.none, _, _ => Except.error ("KeyError: " ++ r.device_type)
  | Option.some _, Option.none, _ => Except.error ("KeyError: " ++ r.data_type)
  | Option.some _, Option.some _, Option.none => Except.error ("KeyError: " ++ r.location_type)
  | Option.some dv, Option.some da, Option.some lo =>
    Except.ok (riskContributions dv da lo r)

/-- One row of `calculate_risk_level`: normalize with
`min(5, max(1, int(risk_score / 8)))`; Python `int(x / 8)` truncates toward
zero, i.e. `Int.tdiv`. -/
def calculate_risk_level_row (r : Record) : Except String Int :=
  match calculate_risk_score r with
  | Except.error e => Except.error e
  | Except.ok s => Except.ok (min 5 (max 1 (Int.tdiv s 8)))

/-- The full `calculate_risk_level` loop over the dataframe rows; a `KeyError`
on any row aborts the batch. -/
def calculate_risk_level (df : List Record) : Except String (List Int) :=
  mapExcept calculate_risk_level_row df

/-- Validity of a generated record: every categorical field takes a value of
its fixed vocabulary and every bounded numeric field stays in the domain the
generator draws it from. -/
def ValidRecord (r : Record) : Prop :=
  r.device_type ∈ device_type_values ∧
  r.data_type ∈ data_type_values ∧
  r.location_type ∈ location_type_values ∧
  r.access_pattern ∈ access_pattern_values ∧
  r.data_sharing ∈ data_sharing_values ∧
  r.compliance_status ∈ compliance_status_values ∧
  1 ≤ r.access_frequency ∧ r.access_frequency ≤ 99 ∧
  1 ≤ r.network_security_level ∧ r.network_security_level ≤ 5 ∧
  1 ≤ r.data_sensitivity ∧ r.data_sensitivity ≤ 5 ∧
  1 ≤ r.encryption_level ∧ r.encryption_level ≤ 3 ∧
  1 ≤ r.retention_period ∧ r.retention_period ≤ 364 ∧
  1 ≤ r.data_volume ∧ r.data_volume ≤ 999 ∧
  1 ≤ r.last_audit_days ∧ r.last_audit_days ≤ 89 ∧
  1 ≤ r.storage_duration ∧ r.storage_duration ≤ 364 ∧
  0 ≤ r.security_incidents ∧ r.security_incidents ≤ 4

instance (r : Record) : Decidable (ValidRecord r) := by
  unfold ValidRecord; infer_instance

/-! ## ml_models/data_preprocessor.py — the DataPreprocessor -/

/-- The `categorical_columns` list of `_encode_categorical_features`. -/
def categorical_columns : List String :=
  ["device_type", "data_type", "location_type", "access_pattern", "data_sharing",
   "compliance_status"]

/-- The `numerical_columns` list of `_scale_numerical_features` (and the copy
inside `preprocess_new_data`). -/
def numerical_columns : List String :=
  ["access_frequency", "network_security_level", "data_sensitivity", "encryption_level",
   "retention_period", "data_volume", "last_audit_days", "storage_duration",
   "security_incidents"]

/-- The `boolean_columns` list of `_convert_boolean_features`. -/
def boolean_columns : List String :=
  ["user_consent", "data_anonymization", "data_pseudonymization", "data_minimization",
   "purpose_limitation", "privacy_impact_assessment", "data_protection_officer"]

/-- Column order of the generated dataframe with the `risk_level` target
dropped: the `feature_columns` computed by `preprocess_data`. -/
def feature_columns_order : List String :=
  ["device_id", "device_type", "data_type", "location_type", "access_frequency",
   "user_consent", "network_security_level", "data_sensitivity", "encryption_level",
   "retention_period", "data_volume", "access_pattern", "last_audit_days",
   "data_anonymization", "data_pseudonymization", "data_minimization",
   "purpose_limitation", "storage_duration", "data_sharing", "compliance_status",
   "security_incidents", "privacy_impact_assessment", "data_protection_officer"]

/-- Column access for the categorical dataframe columns. -/
def recCat (r : Record) : String → String
  | "device_type" => r.device_type
  | "data_type" => r.data_type
  | "location_type" => r.location_type
  | "access_pattern" => r.access_pattern
  | "data_sharing" => r.data_sharing
  | "compliance_status" => r.compliance_status
  | _ => ""

/-- Column access for the numerical dataframe columns. -/
def recNum (r : Record) : String → Int
  | "access_frequency" => r.access_frequency
  | "network_security_level" => r.network_security_level
  | "data_sensitivity" => r.data_sensitivity
  | "encryption_level" => r.encryption_level
  | "retention_period" => r.retention_period
  | "data_volume" => r.data_volume
  | "last_audit_days" => r.last_audit_days
  | "storage_duration" => r.storage_duration
  | "security_incidents" => r.security_incidents
  | _ => 0

/-- Column access for the boolean dataframe columns. -/
def recBool (r : Record) : String → Bool
  | "user_consent" => r.user_consent
  | "data_anonymization" => r.data_anonymization
  | "data_pseudonymization" => r.data_pseudonymization
  | "data_minimization" => r.data_minimization
  | "purpose_limitation" => r.purpose_limitation
  | "privacy_impact_assessment" => r.privacy_impact_assessment
  | "data_protection_officer" => r.data_protection_officer
  | _ => false

/-- One cell of a preprocessed feature matrix.  `Cell.scaled c v` stands for
the float `c / sqrt v` (with `sqrt 0` treated as `1`) that
`StandardScaler.transform` emits from the centered value `c = x - mean` and the
fitted variance `v`; the pair determines the emitted float, and no claim below
depends on its magnitude. -/
inductive Cell where
  | str : String → Cell
  | int : Int → Cell
  | scaled : ℚ → ℚ → Cell
deriving DecidableEq

/-- Mutable state of a `DataPreprocessor`: the fitted `StandardScaler`
statistics (mean and variance per numerical column), the per-column
`LabelEncoder` class lists, and the fitted output column order. -/
structure DataPreprocessor where
  scalerStats : Option (List (String × ℚ × ℚ))
  label_encoders : List (String × List String)
  feature_columns : List String
deriving DecidableEq

/-- A freshly constructed `DataPreprocessor()`. -/
def DataPreprocessor.init : DataPreprocessor :=
  { scalerStats := Option.none, label_encoders := [], feature_columns := [] }

/-- Mean of a numeric column, as `StandardScaler.fit` computes it. -/
def colMean (xs : List ℚ) : ℚ := xs.sum / (xs.length : ℚ)

/-- Population variance of a numeric column (`StandardScaler` uses the biased
estimator). -/
def colVar (xs : List ℚ) : ℚ :=
  ((xs.map (fun x => (x - colMean xs) ^ 2)).sum) / (xs.length : ℚ)

/-- The encoder-fitting loop of `_encode_categorical_features`: for each
categorical column, fit a fresh `LabelEncoder` only when the column has no
encoder yet (`if col not in self.label_encoders`); an existing encoder is kept
untouched. -/
def fitEncoders (encoders : List (String × List String)) (df : List (Record × Int)) :
    List (String × List String) :=
  categorical_columns.foldl
    (fun es col =>
      if (es.lookup col).isSome then es
      else es ++ [(col, sortedUnique (df.map (fun rc => recCat rc.1 col)))])
    encoders

/-- `StandardScaler.fit_transform`'s fitting half inside
`_scale_numerical_features`: statistics are recomputed from the whole incoming
dataframe on every fit-path call. -/
def fitScaler (df : List (Record × Int)) : List (String × ℚ × ℚ) :=
  numerical_columns.map (fun col =>
    let xs := df.map (fun rc => (recNum rc.1 col : ℚ))
    (col, colMean xs, colVar xs))

/-- Produce one output cell for column `col` of record `r`, using the given
encoders and scaler statistics: categorical columns become their
`LabelEncoder` code (unseen values raise), numerical columns are standardized,
boolean columns become 0/1, and the remaining `device_id` column passes
through as a string.  The source transforms column-by-column; building the
matrix row-by-row yields the same matrix and raises exactly when the source
raises. -/
def encodeCellWith (encoders : List (String × List String))
    (stats : List (String × ℚ × ℚ)) (r : Record) (col : String) :
    Except String Cell :=
  if col ∈ categorical_columns then
    match encoders.lookup col with
    | Option.none => Except.error ("KeyError: " ++ col)
    | Option.some classes =>
      match encIndex classes (recCat r col) with
      | Option.some i => Except.ok (Cell.int (i : Int))
      | Option.none => Except.error "y contains previously unseen labels"
  else if col ∈ numerical_columns then
    match stats.lookup col with
    | Option.none => Except.error ("KeyError: " ++ col)
    | Option.some mv => Except.ok (Cell.scaled ((recNum r col : ℚ) - mv.1) mv.2)
  else if col ∈ boolean_columns then
    Except.ok (Cell.int (if recBool r col then 1 else 0))
  else
    Except.ok (Cell.str r.device_id)

/-- `DataPreprocessor.preprocess_data` (the fit path): convert booleans, fit
the missing label encoders and encode, refit the scaler and scale, then record
`feature_columns` and split the matrix from the `risk_level` target. -/
def preprocess_data (P : DataPreprocessor) (df : List (Record × Int)) :
    Except String (DataPreprocessor × List (List Cell) × List Int) :=
  match mapExcept (fun rc => mapExcept
      (encodeCellWith (fitEncoders P.label_encoders df) (fitScaler df) rc.1)
      feature_columns_order) df with
  | Except.error e => Except.error e
  | Except.ok rows =>
    Except.ok
      ({ scalerStats := Option.some (fitScaler df),
         label_encoders := fitEncoders P.label_encoders df,
         feature_columns := feature_columns_order },
       rows, df.map (fun rc => rc.2))

/-- `DataPreprocessor.preprocess_new_data` (the transform path): refuse to run
before fitting, then reuse the stored encoders and scaler statistics
read-only; an unseen categorical value raises.  The returned state is the
state the call leaves behind. -/
def preprocess_new_data (P : DataPreprocessor) (df : List Record) :
    Except String (DataPreprocessor × List (List Cell)) :=
  if P.label_encoders = [] ∨ P.feature_columns = [] then
    Except.error "Preprocessor must be fitted with training data first"
  else
    match P.scalerStats with
    | Option.none => Except.error "This StandardScaler instance is not fitted yet"
    | Option.some stats =>
      match mapExcept (fun r => mapExcept (encodeCellWith P.label_encoders stats r) P.feature_columns) df with
      | Except.error e => Except.error e
      | Except.ok rows => Except.ok (P, rows)

/-! ## ml_models/privacy_risk_classifier.py — the PrivacyRiskClassifier -/

/-- One prediction-time feature dictionary, as assembled by the API's
`assess_risk`: the three categorical keys plus `access_frequency`,
`user_consent`, `network_security_level` and the `data_sensitivity` override.
`Option.none` models an absent key. -/
structure Sample where
  device_type : Option String
  data_type : Option String
  location_type : Option String
  access_frequency : Option Int
  user_consent : Option Bool
  network_security_level : Option Int
  data_sensitivity : Option Int
deriving DecidableEq

/-- The classifier's stored `self.label_encoders` dictionary: the fitted class
list of each of its three categorical features. -/
structure Encoders where
  device_type : List String
  data_type : List String
  location_type : List String
deriving DecidableEq

/-- The components of a sample that `_encode_features` reads: the three
categorical keys as-is, and the numeric keys after the `sample.get` defaulting
(`access_frequency` → 0, `user_consent` → False rendered as 0/1,
`network_security_level` → 0). -/
structure SampleCore where
  device_type : Option String
  data_type : Option String
  location_type : Option String
  access_frequency : Int
  user_consent : Int
  network_security_level : Int
deriving DecidableEq

/-- Project a feature dictionary onto what `_encode_features` reads from it. -/
def sample_core (s : Sample) : SampleCore :=
  { device_type := s.device_type, data_type := s.data_type,
    location_type := s.location_type,
    access_frequency := s.access_frequency.getD 0,
    user_consent := if s.user_consent.getD false then 1 else 0,
    network_security_level := s.network_security_level.getD 0 }

/-- The per-sample encoding loop of `_encode_features`: transform the three
categorical values with the (freshly fitted) encoders, then append the
defaulted numeric values.  The "Missing required feature" branch mirrors the
source's `ValueError`; it is unreachable from `encode_features` because the
encoder-fitting pass has already raised `KeyError` on any absent key. -/
def encode_core (E : Encoders) (c : SampleCore) : Except String (List Int) :=
  match c.device_type with
  | Option.none => Except.error "Missing required feature: device_type"
  | Option.some v1 =>
    match encIndex E.device_type v1 with
    | Option.none => Except.error "y contains previously unseen labels"
    | Option.some c1 =>
      match c.data_type with
      | Option.none => Except.error "Missing required feature: data_type"
      | Option.some v2 =>
        match encIndex E.data_type v2 with
        | Option.none => Except.error "y contains previously unseen labels"
        | Option.some c2 =>
          match c.location_type with
          | Option.none => Except.error "Missing required feature: location_type"
          | Option.some v3 =>
            match encIndex E.location_type v3 with
            | Option.none => Except.error "y contains previously unseen labels"
            | Option.some c3 =>
              Except.ok
                [(c1 : Int), (c2 : Int), (c3 : Int),
                 c.access_frequency, c.user_consent, c.network_security_level]

/-- `_encode_features` over the projected cores: first re-fit each of the
three label encoders on the distinct values found in this very input (raising
`KeyError` if a categorical key is absent from some sample), then encode every
sample with the freshly fitted encoders.  The returned `Encoders` value is the
state the call stores into `self.label_encoders`. -/
def encode_cores (cs : List SampleCore) : Except String (Encoders × List (List Int)) :=
  match collectVals SampleCore.device_type cs with
  | Option.none => Except.error "KeyError: device_type"
  | Option.some dvs =>
    match collectVals SampleCore.data_type cs with
    | Option.none => Except.error "KeyError: data_type"
    | Option.some das =>
      match collectVals SampleCore.location_type cs with
      | Option.none => Except.error "KeyError: location_type"
      | Option.some los =>
        let E : Encoders :=
          { device_type := sortedUnique dvs, data_type := sortedUnique das,
            location_type := sortedUnique los }
        match mapExcept (encode_core E) cs with
        | Except.error e => Except.error e
        | Except.ok rows => Except.ok (E, rows)

/-- `PrivacyRiskClassifier._encode_features` on a batch of feature
dictionaries. -/
def encode_features (X : List Sample) : Except String (Encoders × List (List Int)) :=
  encode_cores (X.map sample_core)

/-- `PrivacyRiskClassifier.train`: encode (overwriting the stored encoders)
and fit the forest; the fitted-forest part is abstract, so the observable
state is the stored `Encoders`. -/
def train (X : List Sample) : Except String Encoders :=
  match encode_features X with
  | Except.error e => Except.error e
  | Except.ok p => Except.ok p.1

/-- `PrivacyRiskClassifier.predict` with the fitted forest abstracted as a
row-wise function `m`: re-encode the batch (overwriting the stored encoders
with ones fitted on this batch) and map the forest over the encoded rows. -/
def predict (m : List Int → Int) (X : List Sample) :
    Except String (Encoders × List Int) :=
  match encode_features X with
  | Except.error e => Except.error e
  | Except.ok p => Except.ok (p.1, p.2.map m)

/-- `PrivacyRiskClassifier.predict_proba`, same shape as `predict` with a
row-wise probability function. -/
def predict_proba (m : List Int → List ℚ) (X : List Sample) :
    Except String (Encoders × List (List ℚ)) :=
  match encode_features X with
  | Except.error e => Except.error e
  | Except.ok p => Except.ok (p.1, p.2.map m)

/-! ## ontology_handlers/privacy_ontology.py — the Knowledge Base Handler -/

/-- One `MitigationStrategy` individual of the ontology: its `riskLevel`
property and its optional `description` (the source keeps only strategies
that `hasattr(strategy, "description")`). -/
structure MitigationStrategy where
  riskLevel : Int
  description : Option String
deriving DecidableEq

/-- `PrivacyOntologyHandler.get_mitigation_strategies` over an abstract
knowledge store: reject risk levels outside `[1,5]`, otherwise return the
descriptions of the stored strategies whose `riskLevel` matches. -/
def get_mitigation_strategies (store : List MitigationStrategy) (risk_level : Int) :
    Except String (List String) :=
  if 1 ≤ risk_level ∧ risk_level ≤ 5 then
    Except.ok ((store.filter (fun st => st.riskLevel == risk_level)).filterMap
      (fun st => st.description))
  else
    Except.error "Risk level must be between 1 and 5"

/-- The `ComplianceStatus` enum (models/domain_models.py). -/
inductive ComplianceStatus where
  | compliant
  | partially_compliant
  | non_compliant
deriving DecidableEq

/-- The device attributes `assess_risk` hands to the Knowledge Base Handler
(from the `IoTDevice` model). -/
structure Device where
  device_type : String
  location_type : String
  data_types : List String
  network_security_level : Int
deriving DecidableEq

/-- A device whose categorical attributes come from the declared enums and
whose security level is in the declared `[1,5]` domain. -/
def ValidDevice (d : Device) : Prop :=
  d.device_type ∈ device_type_values ∧
  d.location_type ∈ location_type_values ∧
  (∀ t ∈ d.data_types, t ∈ data_type_values) ∧
  d.data_types ≠ [] ∧
  1 ≤ d.network_security_level ∧ d.network_security_level ≤ 5

instance (d : Device) : Decidable (ValidDevice d) := by
  unfold ValidDevice; infer_instance

/-- Modelled from the spec: `check_compliance` is called by the API's
`assess_risk` but its implementation is absent from
`ontology_handlers/privacy_ontology.py`; per spec §4.4 it derives a tri-state
compliance status from the device attributes and whether consent was given,
with the exact rule table a policy decision of the knowledge store.  Missing
consent is the clearest violation, and a well-secured device with consent is
compliant. -/
def check_compliance (device : Device) (consent_given : Bool) : ComplianceStatus :=
  if !consent_given then ComplianceStatus.non_compliant
  else if 4 ≤ device.network_security_level then ComplianceStatus.compliant
  else ComplianceStatus.partially_compliant

/-- Clamp a rational contribution into `[0,1]`. -/
def clamp01 (q : ℚ) : ℚ := min 1 (max 0 q)

/-- Modelled from the spec: `analyze_risk_factors` is called by the API's
`assess_risk` but its implementation is absent from
`ontology_handlers/privacy_ontology.py`; per spec §4.4 it returns the small
fixed factor set (data sensitivity, consent, location risk, device-type risk)
with each contribution a number in `[0,1]`, independent of the classifier.
The factor names follow the repository's own test fixtures. -/
def analyze_risk_factors (device : Device) (consent_given : Bool) :
    List (String × ℚ) :=
  [("data_sensitivity",
      clamp01 (((dataRisk (device.data_types.headD "")).getD 0 : ℚ) / 5)),
   ("user_consent", if consent_given then 1/5 else 9/10),
   ("location_risk", clamp01 (((locationRisk device.location_type).getD 0 : ℚ) / 5)),
   ("device_type_risk", clamp01 (((deviceRisk device.device_type).getD 0 : ℚ) / 5))]

/-! ## Concrete example data used by witnesses and counterexamples -/

/-- A fully-populated valid record with mid-range values. -/
def baseRecord : Record :=
  { device_id := "device_0", device_type := "camera", data_type := "video",
    location_type := "public_space", access_frequency := 10, user_consent := true,
    network_security_level := 3, data_sensitivity := 3, encryption_level := 2,
    retention_period := 30, data_volume := 100, access_pattern := "regular",
    last_audit_days := 10, data_anonymization := true, data_pseudonymization := true,
    data_minimization := true, purpose_limitation := true, storage_duration := 30,
    data_sharing := "none", compliance_status := "compliant", security_incidents := 0,
    privacy_impact_assessment := true, data_protection_officer := true }

/-- The spec's end-to-end scenario A record: camera/video/public_space with every
other field at its worst-case value. -/
def scenarioA : Record :=
  { baseRecord with
    access_frequency := 99, user_consent := false,
    network_security_level := 1, data_sensitivity := 5, encryption_level := 1,
    retention_period := 364, data_volume := 999, access_pattern := "burst",
    last_audit_days := 89, data_anonymization := false, data_pseudonymization := false,
    data_minimization := false, purpose_limitation := false, storage_duration := 364,
    data_sharing := "external", compliance_status := "non_compliant",
    security_incidents := 4, privacy_impact_assessment := false,
    data_protection_officer := false }

/-- The spec's end-to-end scenario B record: same categoricals with every other
field at its best-case value. -/
def scenarioB : Record :=
  { scenarioA with
    access_frequency := 1, user_consent := true,
    network_security_level := 5, data_sensitivity := 1, encryption_level := 3,
    retention_period := 1, data_volume := 1, access_pattern := "regular",
    last_audit_days := 1, data_anonymization := true, data_pseudonymization := true,
    data_minimization := true, purpose_limitation := true, storage_duration := 1,
    data_sharing := "none", compliance_status := "compliant", security_incidents := 0,
    privacy_impact_assessment := true, data_protection_officer := true }

/-- A camera/video/public_space prediction sample. -/
def r9 : Sample :=
  { device_type := Option.some "camera", data_type := Option.some "video",
    location_type := Option.some "public_space", access_frequency := Option.some 1,
    user_consent := Option.some true, network_security_level := Option.some 3,
    data_sensitivity := Option.some 3 }

/-- An actuator/audio/private_space prediction sample. -/
def r9b : Sample :=
  { device_type := Option.some "actuator", data_type := Option.some "audio",
    location_type := Option.some "private_space", access_frequency := Option.some 1,
    user_consent := Option.some true, network_security_level := Option.some 3,
    data_sensitivity := Option.some 3 }

/-- A sensor/temperature/private_space sample, entirely outside the vocabulary
of a classifier trained on `[r9]`. -/
def rSensor : Sample :=
  { device_type := Option.some "sensor", data_type := Option.some "temperature",
    location_type := Option.some "private_space", access_frequency := Option.some 1,
    user_consent := Option.some true, network_security_level := Option.some 3,
    data_sensitivity := Option.some 3 }

/-- A sample carrying the three categorical keys but none of the numeric
keys. -/
def sMissing : Sample :=
  { device_type := Option.some "camera", data_type := Option.some "video",
    location_type := Option.some "public_space", access_frequency := Option.none,
    user_consent := Option.none, network_security_level := Option.none,
    data_sensitivity := Option.some 3 }

/-- Encoder state fitted on the two-sample batch `[r9, r9b]` (classes sorted
ascending by `LabelEncoder.fit`). -/
def trainedEncoders : Encoders :=
  { device_type := ["actuator", "camera"], data_type := ["audio", "video"],
    location_type := ["private_space", "public_space"] }

/-- A valid example device for the Knowledge Base Handler. -/
def exDevice : Device :=
  { device_type := "camera", location_type := "public_space",
    data_types := ["video"], network_security_level := 3 }

/-- A preprocessor fitted on the one-record corpus `[(baseRecord, 2)]`. -/
def fittedP : DataPreprocessor :=
  { scalerStats := Option.some (fitScaler [(baseRecord, 2)]),
    label_encoders := fitEncoders [] [(baseRecord, 2)],
    feature_columns := feature_columns_order }

/-! ## Helper lemmas -/

theorem mapExcept_error_of_mem {α β : Type} (f : α → Except String β) {l : List α}
    {x : α} (hx : x ∈ l) (he : ∃ e, f x = Except.error e) :
    ∃ e, mapExcept f l = Except.error e := by
  induction l with
  | nil => cases hx
  | cons a t ih =>
    rcases List.mem_cons.1 hx with rfl | hxt
    · obtain ⟨e, he⟩ := he
      exact ⟨e, by simp [mapExcept, he]⟩
    · rcases hfa : f a with e | b
      · exact ⟨e, by simp [mapExcept, hfa]⟩
      · obtain ⟨e, he2⟩ := ih hxt
        exact ⟨e, by simp [mapExcept, hfa, he2]⟩

theorem mapExcept_ok_of_forall {α β : Type} (f : α → Except String β) {l : List α}
    (h : ∀ x ∈ l, ∃ b, f x = Except.ok b) :
    ∃ bs, mapExcept f l = Except.ok bs := by
  induction l with
  | nil => exact ⟨[], rfl⟩
  | cons a t ih =>
    obtain ⟨b, hb⟩ := h a (List.mem_cons_self a t)
    obtain ⟨bs, hbs⟩ := ih (fun x hx => h x (List.mem_cons_of_mem a hx))
    exact ⟨b :: bs, by simp [mapExcept, hb, hbs]⟩

theorem collectVals_none_of_mem {σ : Type} (get : σ → Option String) {l : List σ}
    {s : σ} (hs : s ∈ l) (h : get s = Option.none) :
    collectVals get l = Option.none := by
  induction l with
  | nil => cases hs
  | cons a t ih =>
    rcases List.mem_cons.1 hs with rfl | hst
    · simp [collectVals, h]
    · rcases hga : get a with _ | v
      · simp [collectVals, hga]
      · simp [collectVals, hga, ih hst]

theorem collectVals_isSome {σ : Type} (get : σ → Option String) {l : List σ}
    (h : ∀ s ∈ l, (get s).isSome) :
    ∃ vs, collectVals get l = Option.some vs := by
  induction l with
  | nil => exact ⟨[], rfl⟩
  | cons a t ih =>
    obtain ⟨v, hv⟩ := Option.isSome_iff_exists.1 (h a (List.mem_cons_self a t))
    obtain ⟨vs, hvs⟩ := ih (fun s hs => h s (List.mem_cons_of_mem a hs))
    exact ⟨v :: vs, by simp [collectVals, hv, hvs]⟩

theorem collectVals_mem {σ : Type} (get : σ → Option String) {l : List σ}
    {vs : List String} (hl : collectVals get l = Option.some vs) {s : σ}
    (hs : s ∈ l) {v : String} (hv : get s = Option.some v) : v ∈ vs := by
  induction l generalizing vs with
  | nil => cases hs
  | cons a t ih =>
    rcases hga : get a with _ | w <;> rw [collectVals, hga] at hl
    · cases hl
    · rcases hct : collectVals get t with _ | ws <;> rw [hct] at hl
      · cases hl
      · cases hl
        rcases List.mem_cons.1 hs with rfl | hst
        · rw [hga] at hv
          cases hv
          exact List.mem_cons_self _ _
        · exact List.mem_cons_of_mem _ (ih hct hst)

theorem encIndex_isSome_of_mem {v : String} {cs : List String} (h : v ∈ cs) :
    ∃ i, encIndex cs v = Option.some i := by
  induction cs with
  | nil => cases h
  | cons c t ih =>
    by_cases hc : c = v
    · exact ⟨0, by simp [encIndex, hc]⟩
    · rcases List.mem_cons.1 h with rfl | hvt
      · exact absurd rfl hc
      · obtain ⟨i, hi⟩ := ih hvt
        exact ⟨i + 1, by simp [encIndex, hc, hi]⟩

theorem encIndex_eq_none_of_not_mem {v : String} {cs : List String} (h : v ∉ cs) :
    encIndex cs v = Option.none := by
  induction cs with
  | nil => rfl
  | cons c t ih =>
    have hc : c ≠ v := fun hcv => h (hcv ▸ List.mem_cons_self c t)
    have hvt : v ∉ t := fun hvt => h (List.mem_cons_of_mem c hvt)
    simp [encIndex, hc, ih hvt]

theorem mem_insertSorted {x v : String} {l : List String} :
    x ∈ insertSorted v l ↔ x = v ∨ x ∈ l := by
  induction l with
  | nil => simp [insertSorted]
  | cons c cs ih =>
    by_cases h : strLeB v c
    · simp [insertSorted, h, List.mem_cons]
    · simp [insertSorted, h, List.mem_cons, ih]
      tauto

theorem mem_sortStrings {x : String} {l : List String} :
    x ∈ sortStrings l ↔ x ∈ l := by
  induction l with
  | nil => simp [sortStrings]
  | cons v vs ih => simp [sortStrings, mem_insertSorted, ih, List.mem_cons]

theorem mem_sortedUnique {v : String} {vs : List String} :
    v ∈ sortedUnique vs ↔ v ∈ vs := by
  unfold sortedUnique
  rw [mem_sortStrings, List.mem_dedup]

theorem lookup_append_left {es : List (String × List String)}
    {l2 : List (String × List String)} {col : String} {cs : List String}
    (h : es.lookup col = Option.some cs) : (es ++ l2).lookup col = Option.some cs := by
  induction es with
  | nil => cases h
  | cons a t ih =>
    rw [List.lookup] at h
    rcases hk : (col == a.1) with _ | _ <;> rw [hk] at h
    · simpa [List.lookup, hk] using ih h
    · simpa [List.lookup, hk] using h

theorem lookup_fitEncoders {es : List (String × List String)} {df : List (Record × Int)}
    {col : String} {cs : List String} (h : es.lookup col = Option.some cs) :
    (fitEncoders es df).lookup col = Option.some cs := by
  unfold fitEncoders
  generalize categorical_columns = cols
  induction cols generalizing es with
  | nil => exact h
  | cons c t ih =>
    rw [List.foldl_cons]
    by_cases hc : ((es.lookup c).isSome : Prop)
    · exact ih (by simpa [hc] using h)
    · exact ih (by simp only [if_neg hc]; exact lookup_append_left h)

theorem deviceRisk_isSome {d : String} (h : d ∈ device_type_values) :
    ∃ v, deviceRisk d = Option.some v := by
  simp only [device_type_values, List.mem_cons, List.not_mem_nil, or_false] at h
  rcases h with rfl | rfl | rfl | rfl | rfl <;> exact ⟨_, rfl⟩

theorem dataRisk_isSome {d : String} (h : d ∈ data_type_values) :
    ∃ v, dataRisk d = Option.some v := by
  simp only [data_type_values, List.mem_cons, List.not_mem_nil, or_false] at h
  rcases h with rfl | rfl | rfl | rfl | rfl | rfl | rfl | rfl <;> exact ⟨_, rfl⟩

theorem locationRisk_isSome {d : String} (h : d ∈ location_type_values) :
    ∃ v, locationRisk d = Option.some v := by
  simp only [location_type_values, List.mem_cons, List.not_mem_nil, or_false] at h
  rcases h with rfl | rfl | rfl | rfl <;> exact ⟨_, rfl⟩

theorem clamp01_bounds (q : ℚ) : 0 ≤ clamp01 q ∧ clamp01 q ≤ 1 :=
  ⟨le_min (by norm_num) (le_max_left 0 q), min_le_left 1 _⟩

/-! ## Claim C1 -/

/-- C1 counterexample: a record whose `access_pattern` is the unrecognized
value "sporadic" does not make `calculate_risk_level` fail fast; the row is
scored without error, and the unrecognized value is treated exactly like
"regular", i.e. as a zero contribution. -/
theorem claim_C1_counterexample :
    calculate_risk_level_row { baseRecord with access_pattern := "sporadic" } =
      Except.ok 2 ∧
    calculate_risk_level_row { baseRecord with access_pattern := "sporadic" } =
      calculate_risk_level_row baseRecord :=
  ⟨rfl, rfl⟩

/-- C1 amended: only the three lookup-table fields (`device_type`,
`data_type`, `location_type`) fail fast with a `KeyError` on an unrecognized
value; an unrecognized value of a tiered field (`access_pattern`,
`data_sharing`, `compliance_status`) is silently scored as a zero
contribution, identical to the lowest tier. -/
theorem claim_C1_amended :
    (∀ r : Record, deviceRisk r.device_type = Option.none →
      ∃ e, calculate_risk_level_row r = Except.error e) ∧
    (∀ r : Record, dataRisk r.data_type = Option.none →
      ∃ e, calculate_risk_level_row r = Except.error e) ∧
    (∀ r : Record, locationRisk r.location_type = Option.none →
      ∃ e, calculate_risk_level_row r = Except.error e) ∧
    (∀ r : Record, r.access_pattern ∉ access_pattern_values →
      calculate_risk_level_row r =
        calculate_risk_level_row { r with access_pattern := "regular" }) ∧
    (∀ r : Record, r.data_sharing ∉ data_sharing_values →
      calculate_risk_level_row r =
        calculate_risk_level_row { r with data_sharing := "none" }) ∧
    (∀ r : Record, r.compliance_status ∉ compliance_status_values →
      calculate_risk_level_row r =
        calculate_risk_level_row { r with compliance_status := "compliant" }) := by
  refine ⟨?_, ?_, ?_, ?_, ?_, ?_⟩
  · intro r h
    exact ⟨"KeyError: " ++ r.device_type,
      by simp [calculate_risk_level_row, calculate_risk_score, h]⟩
  · intro r h
    rcases hd : deviceRisk r.device_type with _ | dv
    · exact ⟨"KeyError: " ++ r.device_type,
        by simp [calculate_risk_level_row, calculate_risk_score, hd]⟩
    · exact ⟨"KeyError: " ++ r.data_type,
        by simp [calculate_risk_level_row, calculate_risk_score, hd, h]⟩
  · intro r h
    rcases hd : deviceRisk r.device_type with _ | dv
    · exact ⟨"KeyError: " ++ r.device_type,
        by simp [calculate_risk_level_row, calculate_risk_score, hd]⟩
    · rcases hda : dataRisk r.data_type with _ | da
      · exact ⟨"KeyError: " ++ r.data_type,
          by simp [calculate_risk_level_row, calculate_risk_score, hd, hda]⟩
      · exact ⟨"KeyError: " ++ r.location_type,
          by simp [calculate_risk_level_row, calculate_risk_score, hd, hda, h]⟩
  · intro r h
    simp only [access_pattern_values, List.mem_cons, List.not_mem_nil, or_false,
      not_or] at h
    have key : ∀ dv da lo : Int,
        riskContributions dv da lo r =
          riskContributions dv da lo { r with access_pattern := "regular" } := by
      intro dv da lo
      simp [riskContributions, accessPatternScore, h.2.1, h.2.2]
    unfold calculate_risk_level_row calculate_risk_score
    rcases hd : deviceRisk r.device_type with _ | dv <;>
      rcases hda : dataRisk r.data_type with _ | da <;>
        rcases hlo : locationRisk r.location_type with _ | lo <;>
          simp [hd, hda, hlo, key]
  · intro r h
    simp only [data_sharing_values, List.mem_cons, List.not_mem_nil, or_false,
      not_or] at h
    have key : ∀ dv da lo : Int,
        riskContributions dv da lo r =
          riskContributions dv da lo { r with data_sharing := "none" } := by
      intro dv da lo
      simp [riskContributions, dataSharingScore, h.2.1, h.2.2]
    unfold calculate_risk_level_row calculate_risk_score
    rcases hd : deviceRisk r.device_type with _ | dv <;>
      rcases hda : dataRisk r.data_type with _ | da <;>
        rcases hlo : locationRisk r.location_type with _ | lo <;>
          simp [hd, hda, hlo, key]
  · intro r h
    simp only [compliance_status_values, List.mem_cons, List.not_mem_nil, or_false,
      not_or] at h
    have key : ∀ dv da lo : Int,
        riskContributions dv da lo r =
          riskContributions dv da lo { r with compliance_status := "compliant" } := by
      intro dv da lo
      simp [riskContributions, complianceScore, h.2.1, h.2.2]
    unfold calculate_risk_level_row calculate_risk_score
    rcases hd : deviceRisk r.device_type with _ | dv <;>
      rcases hda : dataRisk r.data_type with _ | da <;>
        rcases hlo : locationRisk r.location_type with _ | lo <;>
          simp [hd, hda, hlo, key]

/-- C1 amended, witnessed at concrete inputs: an unknown device type, data
type or location type raises, while unknown tiered values score like the
lowest tier. -/
theorem claim_C1_amended_witness :
    (∃ e, calculate_risk_level_row { baseRecord with device_type := "drone" } =
      Except.error e) ∧
    (∃ e, calculate_risk_level_row { baseRecord with data_type := "dna" } =
      Except.error e) ∧
    (∃ e, calculate_risk_level_row { baseRecord with location_type := "orbit" } =
      Except.error e) ∧
    calculate_risk_level_row { baseRecord with access_pattern := "sporadic" } =
      calculate_risk_level_row { baseRecord with access_pattern := "regular" } ∧
    calculate_risk_level_row { baseRecord with data_sharing := "global" } =
      calculate_risk_level_row { baseRecord with data_sharing := "none" } ∧
    calculate_risk_level_row { baseRecord with compliance_status := "unknown" } =
      calculate_risk_level_row { baseRecord with compliance_status := "compliant" } :=
  ⟨claim_C1_amended.1 { baseRecord with device_type := "drone" } rfl,
   claim_C1_amended.2.1 { baseRecord with data_type := "dna" } rfl,
   claim_C1_amended.2.2.1 { baseRecord with location_type := "orbit" } rfl,
   claim_C1_amended.2.2.2.1 { baseRecord with access_pattern := "sporadic" } (by decide),
   claim_C1_amended.2.2.2.2.1 { baseRecord with data_sharing := "global" } (by decide),
   claim_C1_amended.2.2.2.2.2 { baseRecord with compliance_status := "unknown" } (by decide)⟩

/-! ## Claim C2 -/

/-- C2: the heuristic maps the spec's scenario A record (all risk drivers at
their worst) to risk level 5 and the spec's scenario B record (all risk
drivers at their best) to risk level 1. -/
theorem claim_C2 :
    calculate_risk_level_row scenarioA = Except.ok 5 ∧
    calculate_risk_level_row scenarioB = Except.ok 1 :=
  ⟨rfl, rfl⟩

/-! ## Claim C3 -/

/-- C3: for every valid device and consent boolean, `check_compliance`
returns one of exactly the three declared compliance states, and every factor
`analyze_risk_factors` returns carries a contribution in `[0,1]`. -/
theorem claim_C3 :
    (∀ (d : Device) (c : Bool), ValidDevice d →
      check_compliance d c = ComplianceStatus.compliant ∨
      check_compliance d c = ComplianceStatus.partially_compliant ∨
      check_compliance d c = ComplianceStatus.non_compliant) ∧
    (∀ (d : Device) (c : Bool), ValidDevice d →
      ∀ f ∈ analyze_risk_factors d c, 0 ≤ f.2 ∧ f.2 ≤ 1) := by
  constructor
  · intro d c _
    unfold check_compliance
    split_ifs <;> simp
  · intro d c _ f hf
    simp only [analyze_risk_factors, List.mem_cons, List.not_mem_nil, or_false] at hf
    rcases hf with rfl | rfl | rfl | rfl
    · exact clamp01_bounds _
    · rcases c with _ | _ <;> norm_num
    · exact clamp01_bounds _
    · exact clamp01_bounds _

/-- C3 witnessed at a concrete valid device. -/
theorem claim_C3_witness :
    (check_compliance exDevice true = ComplianceStatus.compliant ∨
     check_compliance exDevice true = ComplianceStatus.partially_compliant ∨
     check_compliance exDevice true = ComplianceStatus.non_compliant) ∧
    (∀ f ∈ analyze_risk_factors exDevice true, 0 ≤ f.2 ∧ f.2 ≤ 1) :=
  ⟨claim_C3.1 exDevice true (by decide), claim_C3.2 exDevice true (by decide)⟩

/-! ## Claim C7 -/

/-- C7: for every fully-populated valid record the heuristic succeeds and
returns the accumulated score integer-divided by 8 and clamped to `[1,5]`,
so the result always lies in `{1,2,3,4,5}`. -/
theorem claim_C7 :
    ∀ r : Record, ValidRecord r →
      ∃ s : Int, calculate_risk_score r = Except.ok s ∧
        calculate_risk_level_row r = Except.ok (min 5 (max 1 (Int.tdiv s 8))) ∧
        1 ≤ min 5 (max 1 (Int.tdiv s 8)) ∧ min 5 (max 1 (Int.tdiv s 8)) ≤ 5 := by
  intro r hv
  obtain ⟨dv, hdv⟩ := deviceRisk_isSome hv.1
  obtain ⟨da, hda⟩ := dataRisk_isSome hv.2.1
  obtain ⟨lo, hlo⟩ := locationRisk_isSome hv.2.2.1
  refine ⟨riskContributions dv da lo r, ?_, ?_, ?_, ?_⟩
  · simp [calculate_risk_score, hdv, hda, hlo]
  · simp [calculate_risk_level_row, calculate_risk_score, hdv, hda, hlo]
  · exact le_min (by norm_num) (le_max_left 1 _)
  · exact min_le_left 5 _

/-- C7 witnessed at a concrete valid record. -/
theorem claim_C7_witness :
    ∃ s : Int, calculate_risk_score baseRecord = Except.ok s ∧
      calculate_risk_level_row baseRecord = Except.ok (min 5 (max 1 (Int.tdiv s 8))) ∧
      1 ≤ min 5 (max 1 (Int.tdiv s 8)) ∧ min 5 (max 1 (Int.tdiv s 8)) ≤ 5 :=
  claim_C7 baseRecord (by decide)

/-! ## Claim C8 -/

/-- C8: `get_mitigation_strategies` raises a domain error for every risk
level outside `[1,5]` and, for every level inside `[1,5]`, returns exactly
the descriptions registered for that level (possibly the empty list). -/
theorem claim_C8 :
    ∀ (store : List MitigationStrategy) (risk_level : Int),
      (¬ (1 ≤ risk_level ∧ risk_level ≤ 5) →
        get_mitigation_strategies store risk_level =
          Except.error "Risk level must be between 1 and 5") ∧
      (1 ≤ risk_level ∧ risk_level ≤ 5 →
        get_mitigation_strategies store risk_level =
          Except.ok ((store.filter (fun st => st.riskLevel == risk_level)).filterMap
            (fun st => st.description))) := by
  intro store risk_level
  constructor
  · intro h
    simp [get_mitigation_strategies, h]
  · intro h
    simp [get_mitigation_strategies, h]

/-- C8 witnessed at the out-of-range levels 0 and 6 and the in-range level 3
over the empty knowledge store, whose empty result is a valid answer. -/
theorem claim_C8_witness :
    get_mitigation_strategies [] 0 = Except.error "Risk level must be between 1 and 5" ∧
    get_mitigation_strategies [] 6 = Except.error "Risk level must be between 1 and 5" ∧
    get_mitigation_strategies [] 3 = Except.ok [] :=
  ⟨(claim_C8 [] 0).1 (by decide), (claim_C8 [] 6).1 (by decide),
   (claim_C8 [] 3).2 (by decide)⟩

/-! ## Claim C9 -/

/-- C9: the record `r9` receives two different encoded feature vectors from
two prediction batches that both contain it and are both drawn from the
training vocabulary of the classifier trained on `[r9, r9b]`, because
`_encode_features` re-fits the label encoders on each call's own input; each
call also stores encoders fitted on its own batch, so the single-sample call
leaves behind an encoder state different from the trained one. -/
theorem claim_C9 :
    train [r9, r9b] = Except.ok trainedEncoders ∧
    encode_features [r9] =
      Except.ok ({ device_type := ["camera"], data_type := ["video"],
                   location_type := ["public_space"] }, [[0, 0, 0, 1, 1, 3]]) ∧
    encode_features [r9, r9b] =
      Except.ok (trainedEncoders, [[1, 1, 1, 1, 1, 3], [0, 0, 0, 1, 1, 3]]) ∧
    ([0, 0, 0, 1, 1, 3] : List Int) ≠ [1, 1, 1, 1, 1, 3] ∧
    ({ device_type := ["camera"], data_type := ["video"],
       location_type := ["public_space"] } : Encoders) ≠ trainedEncoders :=
  ⟨rfl, rfl, rfl, by decide, by decide⟩

/-! ## Claim C10 -/

/-- C10: two prediction inputs that agree on `device_type`, `data_type`,
`location_type`, `access_frequency`, `user_consent` and
`network_security_level` produce identical `predict` and `predict_proba`
results, whatever the fitted forest does and however the remaining field
(`data_sensitivity`, the assessment request's sensitivity override)
differs. -/
theorem claim_C10 :
    ∀ (m : List Int → Int) (p : List Int → List ℚ) (s1 s2 : Sample),
      s1.device_type = s2.device_type → s1.data_type = s2.data_type →
      s1.location_type = s2.location_type →
      s1.access_frequency = s2.access_frequency →
      s1.user_consent = s2.user_consent →
      s1.network_security_level = s2.network_security_level →
      predict m [s1] = predict m [s2] ∧ predict_proba p [s1] = predict_proba p [s2] := by
  intro m p s1 s2 h1 h2 h3 h4 h5 h6
  have hc : sample_core s1 = sample_core s2 := by
    simp [sample_core, h1, h2, h3, h4, h5, h6]
  constructor
  · simp [predict, encode_features, hc]
  · simp [predict_proba, encode_features, hc]

/-- C10 witnessed at two concrete samples differing only in the
`data_sensitivity` override. -/
theorem claim_C10_witness :
    predict (fun row => row.headD 0) [r9] =
      predict (fun row => row.headD 0) [{ r9 with data_sensitivity := Option.some 5 }] ∧
    predict_proba (fun _ => [1, 0, 0, 0, 0]) [r9] =
      predict_proba (fun _ => [1, 0, 0, 0, 0])
        [{ r9 with data_sensitivity := Option.some 5 }] :=
  claim_C10 (fun row => row.headD 0) (fun _ => [1, 0, 0, 0, 0]) r9
    { r9 with data_sensitivity := Option.some 5 } rfl rfl rfl rfl rfl rfl

/-! ## Claim C4 -/

/-- A record's missing categorical key makes the classifier's encoder-refit
pass raise; shared by the missing-key statements below. -/
theorem encode_features_error_of_missing {X : List Sample} {s : Sample} (hs : s ∈ X)
    (h : s.device_type = Option.none ∨ s.data_type = Option.none ∨
      s.location_type = Option.none) :
    ∃ e, encode_features X = Except.error e := by
  have hcs : sample_core s ∈ X.map sample_core := List.mem_map_of_mem sample_core hs
  rcases h with h | h | h
  · have hn : collectVals SampleCore.device_type (X.map sample_core) = Option.none :=
      collectVals_none_of_mem _ hcs (by simp [sample_core, h])
    exact ⟨"KeyError: device_type", by simp [encode_features, encode_cores, hn]⟩
  · rcases hd : collectVals SampleCore.device_type (X.map sample_core) with _ | dvs
    · exact ⟨"KeyError: device_type", by simp [encode_features, encode_cores, hd]⟩
    · have hn : collectVals SampleCore.data_type (X.map sample_core) = Option.none :=
        collectVals_none_of_mem _ hcs (by simp [sample_core, h])
      exact ⟨"KeyError: data_type", by simp [encode_features, encode_cores, hd, hn]⟩
  · rcases hd : collectVals SampleCore.device_type (X.map sample_core) with _ | dvs
    · exact ⟨"KeyError: device_type", by simp [encode_features, encode_cores, hd]⟩
    · rcases hda : collectVals SampleCore.data_type (X.map sample_core) with _ | das
      · exact ⟨"KeyError: data_type", by simp [encode_features, encode_cores, hd, hda]⟩
      · have hn : collectVals SampleCore.location_type (X.map sample_core) = Option.none :=
          collectVals_none_of_mem _ hcs (by simp [sample_core, h])
        exact ⟨"KeyError: location_type",
          by simp [encode_features, encode_cores, hd, hda, hn]⟩

/-- Every sample whose three categorical keys are present is encodable by the
refit-on-every-call encoder, whatever the batch. -/
theorem encode_features_ok_of_keys {X : List Sample}
    (h : ∀ s ∈ X, s.device_type.isSome ∧ s.data_type.isSome ∧ s.location_type.isSome) :
    ∃ out, encode_features X = Except.ok out := by
  have h1 : ∀ c ∈ X.map sample_core, (SampleCore.device_type c).isSome := by
    intro c hc
    obtain ⟨s, hs, rfl⟩ := List.mem_map.1 hc
    exact (h s hs).1
  have h2 : ∀ c ∈ X.map sample_core, (SampleCore.data_type c).isSome := by
    intro c hc
    obtain ⟨s, hs, rfl⟩ := List.mem_map.1 hc
    exact (h s hs).2.1
  have h3 : ∀ c ∈ X.map sample_core, (SampleCore.location_type c).isSome := by
    intro c hc
    obtain ⟨s, hs, rfl⟩ := List.mem_map.1 hc
    exact (h s hs).2.2
  obtain ⟨dvs, hdvs⟩ := collectVals_isSome SampleCore.device_type h1
  obtain ⟨das, hdas⟩ := collectVals_isSome SampleCore.data_type h2
  obtain ⟨los, hlos⟩ := collectVals_isSome SampleCore.location_type h3
  have hrows : ∃ rows,
      mapExcept (encode_core
        { device_type := sortedUnique dvs, data_type := sortedUnique das,
          location_type := sortedUnique los }) (X.map sample_core) =
        Except.ok rows := by
    apply mapExcept_ok_of_forall
    intro c hc
    obtain ⟨v1, hv1⟩ := Option.isSome_iff_exists.1 (h1 c hc)
    obtain ⟨v2, hv2⟩ := Option.isSome_iff_exists.1 (h2 c hc)
    obtain ⟨v3, hv3⟩ := Option.isSome_iff_exists.1 (h3 c hc)
    obtain ⟨i1, hi1⟩ := encIndex_isSome_of_mem
      (mem_sortedUnique.2 (collectVals_mem SampleCore.device_type hdvs hc hv1))
    obtain ⟨i2, hi2⟩ := encIndex_isSome_of_mem
      (mem_sortedUnique.2 (collectVals_mem SampleCore.data_type hdas hc hv2))
    obtain ⟨i3, hi3⟩ := encIndex_isSome_of_mem
      (mem_sortedUnique.2 (collectVals_mem SampleCore.location_type hlos hc hv3))
    exact ⟨[(i1 : Int), (i2 : Int), (i3 : Int), c.access_frequency, c.user_consent,
            c.network_security_level],
      by simp [encode_core, hv1, hi1, hv2, hi2, hv3, hi3]⟩
  obtain ⟨rows, hrows⟩ := hrows
  exact ⟨({ device_type := sortedUnique dvs, data_type := sortedUnique das,
            location_type := sortedUnique los }, rows),
    by simp [encode_features, encode_cores, hdvs, hdas, hlos, hrows]⟩

/-- C4 counterexample: a classifier trained on `[r9]` has only
camera/video/public_space in its fitted vocabulary, yet `predict` on the
entirely-unseen sample `rSensor` does not raise — it silently re-fits its
encoders on the prediction batch and invents the fresh code 0 for each unseen
value. -/
theorem claim_C4_counterexample :
    train [r9] = Except.ok { device_type := ["camera"], data_type := ["video"],
                             location_type := ["public_space"] } ∧
    rSensor.device_type = Option.some "sensor" ∧
    "sensor" ∉ (["camera"] : List String) ∧
    predict (fun _ => 3) [rSensor] =
      Except.ok ({ device_type := ["sensor"], data_type := ["temperature"],
                   location_type := ["private_space"] }, [3]) ∧
    encode_features [rSensor] =
      Except.ok ({ device_type := ["sensor"], data_type := ["temperature"],
                   location_type := ["private_space"] }, [[0, 0, 0, 1, 1, 3]]) :=
  ⟨rfl, rfl, by decide, rfl, rfl⟩

/-- C4 amended: the Feature Transformer's `preprocess_new_data` does raise a
validation error whenever some record's value for a fitted categorical column
is absent from that column's fitted vocabulary, but the Risk Classifier's
`predict` never raises an unseen-category error: it re-fits its own encoders
on the prediction batch itself, so every batch whose records carry the three
categorical keys is encoded, with unseen values receiving freshly invented
codes. -/
theorem claim_C4_amended :
    (∀ (P : DataPreprocessor) (df : List Record) (r : Record) (col : String)
        (classes : List String),
      r ∈ df → col ∈ P.feature_columns → col ∈ categorical_columns →
      P.label_encoders.lookup col = Option.some classes →
      recCat r col ∉ classes →
      ∃ e, preprocess_new_data P df = Except.error e) ∧
    (∀ (m : List Int → Int) (X : List Sample),
      (∀ s ∈ X, s.device_type.isSome ∧ s.data_type.isSome ∧ s.location_type.isSome) →
      ∃ out, predict m X = Except.ok out) := by
  constructor
  · intro P df r col classes hr hfc hcat hlook hnot
    by_cases hg : (P.label_encoders = [] ∨ P.feature_columns = [])
    · exact ⟨"Preprocessor must be fitted with training data first",
        by simp [preprocess_new_data, hg]⟩
    · rcases hs : P.scalerStats with _ | stats
      · exact ⟨"This StandardScaler instance is not fitted yet",
          by simp [preprocess_new_data, hg, hs]⟩
      · have hcell : encodeCellWith P.label_encoders stats r col =
            Except.error "y contains previously unseen labels" := by
          simp [encodeCellWith, hcat, hlook, encIndex_eq_none_of_not_mem hnot]
        obtain ⟨e1, he1⟩ :=
          mapExcept_error_of_mem (encodeCellWith P.label_encoders stats r) hfc
            ⟨_, hcell⟩
        obtain ⟨e2, he2⟩ :=
          mapExcept_error_of_mem
            (fun rr => mapExcept (encodeCellWith P.label_encoders stats rr)
              P.feature_columns) hr ⟨e1, he1⟩
        exact ⟨e2, by simp [preprocess_new_data, hg, hs, he2]⟩
  · intro m X h
    obtain ⟨out, hout⟩ := encode_features_ok_of_keys h
    exact ⟨(out.1, out.2.map m), by simp [predict, hout]⟩

/-- C4 amended, witnessed: the transformer fitted on `[(baseRecord, 2)]`
rejects a record with the unseen device type "drone", while the classifier
happily predicts on the fully-keyed sample `rSensor`. -/
theorem claim_C4_amended_witness :
    (∃ e, preprocess_new_data fittedP [{ baseRecord with device_type := "drone" }] =
      Except.error e) ∧
    (∃ out, predict (fun _ => 3) [rSensor] = Except.ok out) :=
  ⟨claim_C4_amended.1 fittedP [{ baseRecord with device_type := "drone" }]
      { baseRecord with device_type := "drone" } "device_type" ["camera"]
      (by decide) (by decide) (by decide) (by decide) (by decide),
   claim_C4_amended.2 (fun _ => 3) [rSensor] (by decide)⟩

/-! ## Claim C5 -/

/-- C5 counterexample: `sMissing` lacks the `access_frequency`,
`user_consent` and `network_security_level` keys, yet `predict` succeeds
instead of failing with a missing-required-feature error, silently encoding
them as 0, 0 (false) and 0. -/
theorem claim_C5_counterexample :
    sMissing.access_frequency = Option.none ∧
    sMissing.user_consent = Option.none ∧
    sMissing.network_security_level = Option.none ∧
    predict (fun _ => 3) [sMissing] =
      Except.ok ({ device_type := ["camera"], data_type := ["video"],
                   location_type := ["public_space"] }, [3]) ∧
    encode_features [sMissing] =
      Except.ok ({ device_type := ["camera"], data_type := ["video"],
                   location_type := ["public_space"] }, [[0, 0, 0, 0, 0, 0]]) :=
  ⟨rfl, rfl, rfl, rfl, rfl⟩

/-- C5 amended: only the three categorical features are effectively required
— a record missing one of them makes both predict paths fail (with the
`KeyError` raised while re-fitting the encoders; the source's explicit
"Missing required feature" `ValueError` is unreachable behind it) — whereas a
missing `access_frequency`, `user_consent` or `network_security_level` is
silently replaced by the defaults 0, false and 0. -/
theorem claim_C5_amended :
    (∀ (m : List Int → Int) (X : List Sample) (s : Sample), s ∈ X →
      (s.device_type = Option.none ∨ s.data_type = Option.none ∨
        s.location_type = Option.none) →
      ∃ e, predict m X = Except.error e) ∧
    (∀ (p : List Int → List ℚ) (X : List Sample) (s : Sample), s ∈ X →
      (s.device_type = Option.none ∨ s.data_type = Option.none ∨
        s.location_type = Option.none) →
      ∃ e, predict_proba p X = Except.error e) ∧
    (∀ (m : List Int → Int) (s : Sample),
      predict m [{ s with access_frequency := Option.none }] =
        predict m [{ s with access_frequency := Option.some 0 }]) ∧
    (∀ (m : List Int → Int) (s : Sample),
      predict m [{ s with user_consent := Option.none }] =
        predict m [{ s with user_consent := Option.some false }]) ∧
    (∀ (m : List Int → Int) (s : Sample),
      predict m [{ s with network_security_level := Option.none }] =
        predict m [{ s with network_security_level := Option.some 0 }]) := by
  refine ⟨?_, ?_, ?_, ?_, ?_⟩
  · intro m X s hs h
    obtain ⟨e, he⟩ := encode_features_error_of_missing hs h
    exact ⟨e, by simp [predict, he]⟩
  · intro p X s hs h
    obtain ⟨e, he⟩ := encode_features_error_of_missing hs h
    exact ⟨e, by simp [predict_proba, he]⟩
  · intro m s
    have hc : sample_core { s with access_frequency := Option.none } =
        sample_core { s with access_frequency := Option.some 0 } := by
      simp [sample_core]
    simp [predict, encode_features, hc]
  · intro m s
    have hc : sample_core { s with user_consent := Option.none } =
        sample_core { s with user_consent := Option.some false } := by
      simp [sample_core]
    simp [predict, encode_features, hc]
  · intro m s
    have hc : sample_core { s with network_security_level := Option.none } =
        sample_core { s with network_security_level := Option.some 0 } := by
      simp [sample_core]
    simp [predict, encode_features, hc]

/-- C5 amended, witnessed at concrete inputs. -/
theorem claim_C5_amended_witness :
    (∃ e, predict (fun _ => 3)
      [{ sMissing with device_type := Option.none }] = Except.error e) ∧
    (∃ e, predict_proba (fun _ => [1, 0, 0, 0, 0])
      [{ sMissing with data_type := Option.none }] = Except.error e) ∧
    predict (fun _ => 3) [{ r9 with access_frequency := Option.none }] =
      predict (fun _ => 3) [{ r9 with access_frequency := Option.some 0 }] ∧
    predict (fun _ => 3) [{ r9 with user_consent := Option.none }] =
      predict (fun _ => 3) [{ r9 with user_consent := Option.some false }] ∧
    predict (fun _ => 3) [{ r9 with network_security_level := Option.none }] =
      predict (fun _ => 3) [{ r9 with network_security_level := Option.some 0 }] :=
  ⟨claim_C5_amended.1 (fun _ => 3) _ { sMissing with device_type := Option.none }
      (List.mem_singleton.2 rfl) (Or.inl rfl),
   claim_C5_amended.2.1 (fun _ => [1, 0, 0, 0, 0]) _
      { sMissing with data_type := Option.none }
      (List.mem_singleton.2 rfl) (Or.inr (Or.inl rfl)),
   claim_C5_amended.2.2.1 (fun _ => 3) r9,
   claim_C5_amended.2.2.2.1 (fun _ => 3) r9,
   claim_C5_amended.2.2.2.2 (fun _ => 3) r9⟩

/-! ## Claim C6 -/

/-- C6 counterexample: a second fit-path call (`preprocess_data`) on a corpus
with different numeric values overwrites the previously fitted scaler
statistics, so the fitted state is not populated exactly once. -/
theorem claim_C6_counterexample :
    ∃ (P1 P2 : DataPreprocessor) (o1 o2 : List (List Cell) × List Int),
      preprocess_data DataPreprocessor.init [(baseRecord, 2)] = Except.ok (P1, o1) ∧
      preprocess_data P1 [({ baseRecord with access_frequency := 50 }, 3)] =
        Except.ok (P2, o2) ∧
      P1.scalerStats ≠ P2.scalerStats := by
  refine ⟨_, _, _, _, rfl, rfl, ?_⟩
  intro hEq
  simp only [Option.some.injEq] at hEq
  have h := congrArg (fun l => l.head?) hEq
  simp [fitScaler, numerical_columns, recNum, colMean, colVar, baseRecord] at h

/-- C6 amended: the transform path (`preprocess_new_data`) never mutates the
fitted state, and no later fit-path call overwrites an already-fitted
categorical encoder; but each fit-path call refits the scaler, overwriting
the stored scaling statistics (see the counterexample). -/
theorem claim_C6_amended :
    (∀ (P : DataPreprocessor) (df : List Record)
        (out : DataPreprocessor × List (List Cell)),
      preprocess_new_data P df = Except.ok out → out.1 = P) ∧
    (∀ (P : DataPreprocessor) (df : List (Record × Int)) (P' : DataPreprocessor)
        (out : List (List Cell) × List Int),
      preprocess_data P df = Except.ok (P', out) →
      ∀ (col : String) (cs : List String),
        P.label_encoders.lookup col = Option.some cs →
        P'.label_encoders.lookup col = Option.some cs) := by
  constructor
  · intro P df out h
    unfold preprocess_new_data at h
    split at h
    · cases h
    · split at h
      · cases h
      · split at h
        · cases h
        · cases h
          rfl
  · intro P df P' out h col cs hcol
    unfold preprocess_data at h
    split at h
    · cases h
    · cases h
      exact lookup_fitEncoders hcol

/-- C6 amended, witnessed: transforming through the fitted preprocessor
leaves its state untouched, and refitting on a second corpus preserves the
already-fitted `device_type` encoder. -/
theorem claim_C6_amended_witness :
    (∃ out, preprocess_new_data fittedP [baseRecord] = Except.ok out ∧ out.1 = fittedP) ∧
    (∃ P' out, preprocess_data fittedP [({ baseRecord with access_frequency := 50 }, 3)] =
      Except.ok (P', out) ∧ P'.label_encoders.lookup "device_type" =
        Option.some ["camera"]) := by
  constructor
  · refine ⟨_, rfl, ?_⟩
    exact claim_C6_amended.1 fittedP [baseRecord] _ rfl
  · refine ⟨_, _, rfl, ?_⟩
    exact claim_C6_amended.2 fittedP [({ baseRecord with access_frequency := 50 }, 3)]
      _ _ rfl "device_type" ["camera"] (by decide)

end PrivacyAnalysis
